import Mathlib

/-!
Shallow embedding of the scheduling/settings logic of a camera bot
(`src/main.py`, class `CameraBot` plus its command handlers).

The decision core is `photo_loop` (lines 56-86): each tick it reads the
settings, returns early when no channel name is configured, and for each
joined guild that has a text channel with the configured name it checks the
special windows in declared order (first window whose inclusive time-of-day
bounds contain `now` decides the whole tick) and otherwise the normal
minute interval.  Times are modelled at second precision, matching the
spec's "second-level precision" timestamps; window bounds are stored as
strings and parsed with `strptime(_, "%H:%M")` on every tick, which we
model with `parseHHMM`.  Python's `%` on integers is floor-mod, i.e.
`Int.fmod`, and raises `ZeroDivisionError` on a zero divisor, which the
embedding surfaces as `EvalError.divByZero`.
-/

/-- A wall-clock time of day at second precision (`datetime.time`
restricted to the fields the program compares; window bounds parsed from
"%H:%M" have `second = 0`). -/
structure Time where
  hour : Nat
  minute : Nat
  second : Nat
deriving DecidableEq, Repr

/-- Python's `time.__le__`: lexicographic comparison of the fields
(hour, then minute, then second). -/
def timeLE (a b : Time) : Bool :=
  decide (a.hour < b.hour) ||
    (decide (a.hour = b.hour) &&
      (decide (a.minute < b.minute) ||
        (decide (a.minute = b.minute) && decide (a.second ≤ b.second))))

/-- Split a character list on `val` separators (semantics of
`str.split` on a single-character separator, restricted to what
`strptime "%H:%M"` needs: the pieces between the colons). -/
def splitCols : List Char → List (List Char)
  | [] => [[]]
  | c :: cs =>
    if c = ':' then [] :: splitCols cs
    else
      match splitCols cs with
      | [] => [[c]]
      | p :: ps => (c :: p) :: ps

/-- Decimal value of a non-empty list of digit characters, `none`
otherwise. -/
def digitsVal? (cs : List Char) : Option Nat :=
  if cs.isEmpty || !cs.all (·.isDigit) then none
  else some (cs.foldl (fun acc c => acc * 10 + (c.toNat - 48)) 0)

/-- `datetime.strptime(s, "%H:%M").time()`: exactly one colon, each side
one or two decimal digits, hour in 0..23, minute in 0..59; any other
string raises `ValueError`, modelled as `none`. -/
def parseHHMM (s : String) : Option Time :=
  match splitCols s.data with
  | [h, m] =>
    match digitsVal? h, digitsVal? m with
    | some hv, some mv =>
      if h.length ≤ 2 ∧ m.length ≤ 2 ∧ hv ≤ 23 ∧ mv ≤ 59 then
        some ⟨hv, mv, 0⟩
      else none
    | _, _ => none
  | _ => none

/-- A special window as stored by the `addwindow` command:
`{"start": start, "end": end, "interval": interval}` (line 131).  The
source's dict key `end` is a Lean keyword, so the field is named `stop`.
The bounds are raw strings, parsed only at tick time. -/
structure Window where
  start : String
  stop : String
  interval : Int
deriving DecidableEq, Repr

/-- The `settings` dict.  Defaults (lines 26-31): no channel, 5-minute
interval, no auto-delete, no windows. -/
structure Settings where
  channel_name : Option String
  interval_minutes : Int
  delete_after_upload : Bool
  special_windows : List Window
deriving DecidableEq, Repr

/-- The default settings installed by `load_settings` when the settings
file is missing or corrupt (lines 25-31). -/
def defaultSettings : Settings :=
  { channel_name := none
    interval_minutes := 5
    delete_after_upload := false
    special_windows := [] }

/-- Python truthiness of the `channel_name` entry as used by
`if not channel_name:` (line 62): `None` and the empty string are falsy. -/
def pyTruthy : Option String → Bool
  | none => false
  | some s => !s.isEmpty

/-- Which schedule fired: the normal minute interval, or the special
window at a given position in the declared sequence. -/
inductive Mode where
  | normal : Mode
  | special : Nat → Mode
deriving DecidableEq, Repr

/-- The per-tick scheduling decision. -/
inductive Decision where
  | noAction : Decision
  | fire : Mode → Decision
deriving DecidableEq, Repr

/-- An exception raised inside the per-tick evaluation:
`ValueError` from `strptime` on an unparseable bound, or
`ZeroDivisionError` from `%` with a zero divisor. -/
inductive EvalError where
  | parseError : String → EvalError
  | divByZero : EvalError
deriving DecidableEq, Repr

/-- The special-window scan of `photo_loop` (lines 72-81): windows are
visited in declared order; each visit parses both bounds (raising on
failure), and the first window whose inclusive bounds contain `now`'s
time-of-day decides the tick — `fire` when `now.second % interval == 0`
(raising when `interval` is zero), `noAction` otherwise.  `some d` means a
window matched and the scan (and the whole tick) ends with decision `d`;
`none` means no window matched and the normal interval is consulted. -/
def checkWindows : List Window → Nat → Time → Except EvalError (Option Decision)
  | [], _, _ => .ok none
  | w :: ws, i, t =>
    match parseHHMM w.start with
    | none => .error (.parseError w.start)
    | some s =>
      match parseHHMM w.stop with
      | none => .error (.parseError w.stop)
      | some e =>
        if timeLE s t && timeLE t e then
          if w.interval = 0 then .error .divByZero
          else if Int.fmod (t.second : Int) w.interval = 0 then
            .ok (some (.fire (.special i)))
          else .ok (some .noAction)
        else checkWindows ws (i + 1) t

/-- The pure decision part of one `photo_loop` tick (lines 60-86), the
spec's `Evaluate(now, config)`: no channel configured gives `noAction`;
otherwise the first matching special window decides; otherwise
`Fire(Normal)` exactly when `now.minute % interval_minutes == 0 and
now.second == 0` (line 84). -/
def evaluate (cfg : Settings) (t : Time) : Except EvalError Decision :=
  if pyTruthy cfg.channel_name then
    match checkWindows cfg.special_windows 0 t with
    | .error e => .error e
    | .ok (some d) => .ok d
    | .ok none =>
      if cfg.interval_minutes = 0 then .error .divByZero
      else if Int.fmod (t.minute : Int) cfg.interval_minutes = 0 ∧ t.second = 0 then
        .ok (.fire .normal)
      else .ok .noAction
  else .ok .noAction

/-- Does a window's inclusive bounds contain `t`'s time-of-day?  `false`
also when a bound does not parse (in the source that case raises instead
of skipping; `windowSkips` separates the two). -/
def windowMatches (w : Window) (t : Time) : Bool :=
  match parseHHMM w.start, parseHHMM w.stop with
  | some s, some e => timeLE s t && timeLE t e
  | _, _ => false

/-- A window the scan steps over without effect: both bounds parse and the
bounds do not contain `t`'s time-of-day. -/
def windowSkips (w : Window) (t : Time) : Bool :=
  match parseHHMM w.start, parseHHMM w.stop with
  | some s, some e => !(timeLE s t && timeLE t e)
  | _, _ => false

/-- An observable side effect of one tick: invoking the capture command
(`take_photo`, line 44), sending the artifact to the channel found in
guild number `g` (`channel.send`, line 51), or removing the artifact file
(`os.remove`, line 53). -/
inductive TickAction where
  | capture : String → TickAction
  | send : Nat → TickAction
  | deleteFile : TickAction
deriving DecidableEq, Repr

/-- An exception escaping the tick body: `RuntimeError` from `take_photo`
(line 46), a transport error from `channel.send`, or an `EvalError` from
the window scan / interval arithmetic.  `photo_loop` catches none of
them. -/
inductive TickError where
  | captureFailed : TickError
  | deliveryFailed : TickError
  | evalError : EvalError → TickError
deriving DecidableEq, Repr

/-- The external world of one tick: the joined guilds (each the list of
its text-channel names, in `guild.text_channels` order), and whether the
capture command and the channel send succeed this tick. -/
structure Env where
  guilds : List (List String)
  captureOk : Bool
  sendOk : Bool
deriving DecidableEq, Repr

/-- `discord.utils.get(guild.text_channels, name=channel_name)` (line 67)
returns a channel iff some text channel of the guild carries the name. -/
def resolveChannel (channels : List String) (name : String) : Bool :=
  channels.contains name

/-- `upload_photo` (lines 49-53): send the file to the channel (an
exception propagates and skips everything after it), then, only after a
successful send, remove the file when `delete_after_upload` is set.
Returns the effects in execution order plus the escaping exception, if
any. -/
def upload_photo (g : Nat) (cfg : Settings) (sendOk : Bool) :
    List TickAction × Option TickError :=
  if sendOk then
    (TickAction.send g :: (if cfg.delete_after_upload then [TickAction.deleteFile] else []), none)
  else ([], some .deliveryFailed)

/-- One `Fire` handled inside the tick: `take_photo(label)` (which always
invokes the capture command and raises `RuntimeError` on a non-zero exit,
lines 43-46) followed by `upload_photo` on success. -/
def fireSeq (env : Env) (label : String) (g : Nat) (cfg : Settings) :
    List TickAction × Option TickError :=
  if env.captureOk then
    let u := upload_photo g cfg env.sendOk
    (TickAction.capture label :: u.1, u.2)
  else ([TickAction.capture label], some .captureFailed)

/-- The guild loop of `photo_loop` (lines 66-86), guild index threaded
through for the trace.  Per guild with the configured channel: the window
scan runs first; an exception aborts the tick; a matching window's
decision `return`s from the whole loop after at most one fire; with no
matching window, the normal-interval check fires **and the loop then
continues with the remaining guilds** (the source has no `return` or
`break` on that path, line 84-86). -/
def runGuilds (cfg : Settings) (env : Env) (name : String) (t : Time) :
    List (List String) → Nat → List TickAction × Option TickError
  | [], _ => ([], none)
  | g :: rest, i =>
    if resolveChannel g name then
      match checkWindows cfg.special_windows 0 t with
      | .error e => ([], some (.evalError e))
      | .ok (some (.fire _)) => fireSeq env "special" i cfg
      | .ok (some .noAction) => ([], none)
      | .ok none =>
        if cfg.interval_minutes = 0 then ([], some (.evalError .divByZero))
        else if Int.fmod (t.minute : Int) cfg.interval_minutes = 0 ∧ t.second = 0 then
          let f := fireSeq env "interval" i cfg
          match f.2 with
          | some e => (f.1, some e)
          | none =>
            let r := runGuilds cfg env name t rest (i + 1)
            (f.1 ++ r.1, r.2)
        else runGuilds cfg env name t rest (i + 1)
    else runGuilds cfg env name t rest (i + 1)

/-- One whole `photo_loop` tick (lines 57-86): the effects it performs, in
order, and the exception escaping its body, if any. -/
def photoLoop (cfg : Settings) (env : Env) (t : Time) :
    List TickAction × Option TickError :=
  if pyTruthy cfg.channel_name then
    runGuilds cfg env (cfg.channel_name.getD "") t env.guilds 0
  else ([], none)

/-- The tick driver around `photo_loop`.  The source registers the loop as
`@tasks.loop(minutes=1)` (line 56) with no error handler and no
`add_exception_type`; under that library contract an exception escaping
the coroutine marks the loop failed and stops it, so ticks after the
first escaping exception never run.  Each list entry is one cadence's
environment and wall-clock time. -/
def tickDriver (cfg : Settings) : List (Env × Time) → List (List TickAction × Option TickError)
  | [] => []
  | (env, t) :: rest =>
    let r := photoLoop cfg env t
    match r.2 with
    | some _ => [r]
    | none => r :: tickDriver cfg rest

/-- A partial settings update as passed to `save_settings(**kwargs)`
(line 33): `none` stands for a key absent from the update or passed as
`None`, which the dict comprehension on line 34 filters out. -/
structure SettingsUpdate where
  channel_name : Option String := none
  interval_minutes : Option Int := none
  delete_after_upload : Option Bool := none
  special_windows : Option (List Window) := none
deriving DecidableEq, Repr

/-- `self.settings.update({k: v for k, v in kwargs.items() if v is not
None})` (line 34): merge exactly the non-`None` fields of the update into
the settings. -/
def applyUpdate (s : Settings) (u : SettingsUpdate) : Settings :=
  { channel_name := match u.channel_name with
      | some v => some v
      | none => s.channel_name
    interval_minutes := u.interval_minutes.getD s.interval_minutes
    delete_after_upload := u.delete_after_upload.getD s.delete_after_upload
    special_windows := u.special_windows.getD s.special_windows }

/-- `save_settings` (lines 33-36): merge the update into the in-memory
settings, then write the result to the settings file.  The file is
modelled as `Option Settings` (`none` = missing or corrupt); returns the
new in-memory settings and the new file contents. -/
def save_settings (s : Settings) (u : SettingsUpdate) : Settings × Option Settings :=
  let s' := applyUpdate s u
  (s', some s')

/-- `load_settings` (lines 21-31): the parsed file when present, the
defaults when the file is missing or corrupt. -/
def load_settings (file : Option Settings) : Settings :=
  file.getD defaultSettings

/-- The `setchannel` command (lines 104-107): stores the name with no
validation. -/
def set_channel (s : Settings) (name : String) : Settings :=
  (save_settings s { channel_name := some name }).1

/-- The `setinterval` command (lines 119-125): rejects minutes below 1
(nothing is stored), otherwise stores the minutes. -/
def set_interval (s : Settings) (minutes : Int) : Settings :=
  if minutes < 1 then s
  else (save_settings s { interval_minutes := some minutes }).1

/-- The `addwindow` command (lines 127-133): appends the window exactly
as given — no validation of the bounds or of the interval. -/
def add_window (s : Settings) (start stop : String) (interval : Int) : Settings :=
  (save_settings s { special_windows := some (s.special_windows ++ [⟨start, stop, interval⟩]) }).1

/-- The `clearwindows` command (lines 135-138). -/
def clear_windows (s : Settings) : Settings :=
  (save_settings s { special_windows := some [] }).1

/-- Transitivity of the lexicographic time-of-day comparison. -/
theorem timeLE_trans {a b c : Time} (h1 : timeLE a b = true) (h2 : timeLE b c = true) :
    timeLE a c = true := by
  simp only [timeLE, Bool.or_eq_true, Bool.and_eq_true, decide_eq_true_eq] at h1 h2 ⊢
  omega

/-- Windows whose bounds parse and do not contain `t` are stepped over by
the scan with no effect other than advancing the declared index. -/
theorem checkWindows_append_skip (pre rest : List Window) (i : Nat) (t : Time)
    (h : ∀ w ∈ pre, windowSkips w t = true) :
    checkWindows (pre ++ rest) i t = checkWindows rest (i + pre.length) t := by
  induction pre generalizing i with
  | nil => simp
  | cons w pre ih =>
    have hw := h w (List.mem_cons_self _ _)
    have hrest : ∀ w' ∈ pre, windowSkips w' t = true :=
      fun w' hm => h w' (List.mem_cons_of_mem _ hm)
    unfold windowSkips at hw
    cases hs : parseHHMM w.start with
    | none => rw [hs] at hw; simp at hw
    | some s =>
      cases he : parseHHMM w.stop with
      | none => rw [hs, he] at hw; simp at hw
      | some e =>
        rw [hs, he] at hw
        have hcond : (timeLE s t && timeLE t e) = false := by
          cases hc : (timeLE s t && timeLE t e) <;> simp_all
        simp only [List.cons_append, checkWindows, hs, he, hcond, Bool.false_eq_true,
          if_false, List.append_eq]
        rw [ih (i + 1) hrest]
        have harith : i + 1 + pre.length = i + (w :: pre).length := by
          simp only [List.length_cons]
          omega
        rw [harith]

/-- When every configured window parses and none contains `t`, the scan
reports that no window matched. -/
theorem checkWindows_none_of_skips (ws : List Window) (i : Nat) (t : Time)
    (h : ∀ w ∈ ws, windowSkips w t = true) :
    checkWindows ws i t = .ok none := by
  have h2 := checkWindows_append_skip ws [] i t h
  simpa [checkWindows] using h2

/-- Claim C1: with a channel set, when at least one special window's
inclusive `[start, end]` bounds contain the tick's time-of-day, the tick
decision is decided entirely by the earliest-declared such window (here
the window `w` after the non-matching prefix `pre`): `Fire(Special)` when
`now.second % w.interval == 0` and `NoAction` otherwise.  The windows in
`post` and the normal interval `im` are universally quantified and absent
from the result, so they are never consulted for the tick. -/
theorem c1_first_matching_window_decides
    (ch : String) (im : Int) (d : Bool) (pre post : List Window) (w : Window) (t : Time)
    (hch : ch.isEmpty = false)
    (hpre : ∀ w' ∈ pre, windowSkips w' t = true)
    (hm : windowMatches w t = true)
    (hi : w.interval ≠ 0) :
    evaluate ⟨some ch, im, d, pre ++ w :: post⟩ t =
      .ok (if Int.fmod (t.second : Int) w.interval = 0 then
        .fire (.special pre.length) else .noAction) := by
  unfold windowMatches at hm
  cases hs : parseHHMM w.start with
  | none => rw [hs] at hm; simp at hm
  | some s =>
    cases he : parseHHMM w.stop with
    | none => rw [hs, he] at hm; simp at hm
    | some e =>
      rw [hs, he] at hm
      have hm' : (timeLE s t && timeLE t e) = true := hm
      rw [Bool.and_eq_true] at hm'
      have hp : pyTruthy (some ch) = true := by simp [pyTruthy, hch]
      have hcw := checkWindows_append_skip pre (w :: post) 0 t hpre
      by_cases hf : Int.fmod (t.second : Int) w.interval = 0
      · simp only [evaluate, hp, if_true]
        rw [hcw]
        simp [checkWindows, hs, he, hm'.1, hm'.2, hi, hf]
      · simp only [evaluate, hp, if_true]
        rw [hcw]
        simp [checkWindows, hs, he, hm'.1, hm'.2, hi, hf]

/-- Claim C1 witness: the spec scenario — window 16:30-16:35 with a
30-second interval, tick at 16:32:30 — fires the special schedule. -/
theorem c1_witness :
    evaluate ⟨some "pics", 5, false, [⟨"16:30", "16:35", 30⟩]⟩ ⟨16, 32, 30⟩ =
      .ok (.fire (.special 0)) := by
  have h := c1_first_matching_window_decides "pics" 5 false [] []
    ⟨"16:30", "16:35", 30⟩ ⟨16, 32, 30⟩ rfl (by simp) rfl (by decide)
  exact h.trans rfl

/-- Claim C2: with a channel set and a tick whose time-of-day lies inside
no configured special window (each window parses and does not contain
it), the decision is `Fire(Normal)` iff `now.minute % interval_minutes ==
0` and `now.second == 0`, and `NoAction` otherwise. -/
theorem c2_normal_interval
    (ch : String) (im : Int) (d : Bool) (ws : List Window) (t : Time)
    (hch : ch.isEmpty = false)
    (hws : ∀ w ∈ ws, windowSkips w t = true)
    (him : 1 ≤ im) :
    evaluate ⟨some ch, im, d, ws⟩ t =
      .ok (if Int.fmod (t.minute : Int) im = 0 ∧ t.second = 0 then
        .fire .normal else .noAction) := by
  have hp : pyTruthy (some ch) = true := by simp [pyTruthy, hch]
  have him0 : ¬(im = 0) := by omega
  simp only [evaluate, hp, if_true]
  rw [checkWindows_none_of_skips ws 0 t hws]
  simp only [him0, if_false]
  by_cases hc : Int.fmod (t.minute : Int) im = 0 ∧ t.second = 0
  · simp [hc]
  · simp [hc]

/-- Claim C2 witness: the spec scenario — interval 5, no windows,
10:05:00 — fires the normal schedule. -/
theorem c2_witness :
    evaluate ⟨some "pics", 5, false, []⟩ ⟨10, 5, 0⟩ = .ok (.fire .normal) := by
  have h := c2_normal_interval "pics" 5 false [] ⟨10, 5, 0⟩ rfl (by simp) (by decide)
  exact h.trans rfl

/-- Claim C3: with no channel name configured, the decision is `NoAction`
for every timestamp and the tick performs no capture, no delivery and no
deletion in any environment. -/
theorem c3_null_channel_no_action (cfg : Settings) (env : Env) (t : Time)
    (h : cfg.channel_name = none) :
    evaluate cfg t = .ok .noAction ∧ photoLoop cfg env t = ([], none) := by
  constructor <;> simp [evaluate, photoLoop, pyTruthy, h]

/-- Claim C3 witness: the default settings have no channel name, so a tick
at 10:05:00 in a guild with channels decides `NoAction` and acts on
nothing. -/
theorem c3_witness :
    evaluate defaultSettings ⟨10, 5, 0⟩ = .ok .noAction ∧
    photoLoop defaultSettings ⟨[["pics"]], true, true⟩ ⟨10, 5, 0⟩ = ([], none) :=
  c3_null_channel_no_action defaultSettings ⟨[["pics"]], true, true⟩ ⟨10, 5, 0⟩ rfl

/-- Claim C4 counterexample: the `addwindow` command stores a special
window whose interval is 0 — a capture interval below 1 reaches the
configuration instead of being rejected at the command boundary. -/
theorem c4_counterexample :
    ((add_window defaultSettings "16:30" "16:35" 0).special_windows.any
      (fun w => decide (w.interval < 1))) = true := rfl

/-- Claim C4 as amended: only the normal-interval command validates — a
`setinterval` below 1 is rejected and leaves the settings unchanged, while
`addwindow` performs no validation and appends the window exactly as
given, whatever its interval. -/
theorem c4_amended_validation :
    (∀ (s : Settings) (m : Int), m < 1 → set_interval s m = s) ∧
    (∀ (s : Settings) (a b : String) (i : Int),
      (add_window s a b i).special_windows = s.special_windows ++ [⟨a, b, i⟩]) := by
  constructor
  · intro s m hm
    simp [set_interval, hm]
  · intro s a b i
    rfl

/-- Claim C4 witness: `setinterval 0` leaves the default settings
unchanged, and `addwindow` with interval -3 stores the window as given. -/
theorem c4_witness :
    set_interval defaultSettings 0 = defaultSettings ∧
    (add_window defaultSettings "16:30" "16:35" (-3)).special_windows =
      [⟨"16:30", "16:35", -3⟩] := by
  refine ⟨c4_amended_validation.1 defaultSettings 0 (by decide), ?_⟩
  have h := c4_amended_validation.2 defaultSettings "16:30" "16:35" (-3)
  simpa using h

/-- Claim C5 (code divergence): with the channel name present in two
guilds, no special windows and a tick at 10:05:00 with a 5-minute
interval, one tick performs two captures and two deliveries — the guild
loop has no `break` after the normal-interval branch, so each guild that
carries the channel gets its own capture. -/
theorem c5_normal_path_fires_per_guild :
    photoLoop ⟨some "pics", 5, false, []⟩ ⟨[["pics"], ["pics"]], true, true⟩ ⟨10, 5, 0⟩ =
      ([.capture "interval", .send 0, .capture "interval", .send 1], none) := rfl

/-- Claim C6 (code divergence): a capture failure at 10:05:00 escapes the
tick body as an uncaught exception, and under the driver's documented
stop-on-unhandled-exception policy the next cadence — which would have
fired at 10:10:00 — is never evaluated. -/
theorem c6_capture_error_stops_driver :
    photoLoop ⟨some "pics", 5, false, []⟩ ⟨[["pics"]], false, true⟩ ⟨10, 5, 0⟩ =
      ([.capture "interval"], some .captureFailed) ∧
    tickDriver ⟨some "pics", 5, false, []⟩
      [(⟨[["pics"]], false, true⟩, ⟨10, 5, 0⟩), (⟨[["pics"]], true, true⟩, ⟨10, 10, 0⟩)] =
      [([.capture "interval"], some .captureFailed)] :=
  ⟨rfl, rfl⟩

/-- Claim C7: when the send fails the exception propagates before the
deletion step, so the artifact is retained regardless of the flag; when
the send succeeds and `delete_after_upload` is set, the deletion happens,
and strictly after the send in the effect order. -/
theorem c7_delete_only_after_successful_delivery (cfg : Settings) (g : Nat) :
    (upload_photo g cfg false = ([], some .deliveryFailed) ∧
      TickAction.deleteFile ∉ (upload_photo g cfg false).1) ∧
    (cfg.delete_after_upload = true →
      upload_photo g cfg true = ([.send g, .deleteFile], none)) ∧
    (cfg.delete_after_upload = false →
      upload_photo g cfg true = ([.send g], none)) := by
  refine ⟨⟨rfl, by simp [upload_photo]⟩, ?_, ?_⟩ <;> intro h <;> simp [upload_photo, h]

/-- Claim C7 witness: with auto-delete on, a successful upload sends then
deletes, and a failed upload deletes nothing. -/
theorem c7_witness :
    upload_photo 0 ⟨none, 5, true, []⟩ true = ([.send 0, .deleteFile], none) ∧
    upload_photo 0 ⟨none, 5, true, []⟩ false = ([], some .deliveryFailed) :=
  ⟨(c7_delete_only_after_successful_delivery ⟨none, 5, true, []⟩ 0).2.1 rfl,
   (c7_delete_only_after_successful_delivery ⟨none, 5, true, []⟩ 0).1.1⟩

/-- Claim C8: a window whose parsed start time-of-day is strictly later
than its parsed end satisfies the inclusive comparison for no
time-of-day, so it never matches and the scan of such a window never
produces a decision. -/
theorem c8_inverted_window_never_matches (w : Window) (s e : Time)
    (hs : parseHHMM w.start = some s) (he : parseHHMM w.stop = some e)
    (hlt : timeLE s e = false) :
    (∀ t, windowMatches w t = false) ∧
    (∀ t i, checkWindows [w] i t = .ok none) := by
  have hmain : ∀ t, windowMatches w t = false := by
    intro t
    unfold windowMatches
    rw [hs, he]
    cases hst : timeLE s t with
    | false => simp [hst]
    | true =>
      cases hte : timeLE t e with
      | false => simp [hte]
      | true => exact absurd (timeLE_trans hst hte) (by simp [hlt])
  refine ⟨hmain, fun t i => ?_⟩
  have h := hmain t
  unfold windowMatches at h
  rw [hs, he] at h
  have h' : (timeLE s t && timeLE t e) = false := h
  rw [Bool.and_eq_false_iff] at h'
  cases h' with
  | inl h1 => simp [checkWindows, hs, he, h1]
  | inr h2 => simp [checkWindows, hs, he, h2]

/-- Claim C8 witness: the window 16:35-16:30 matches no time-of-day;
in particular 16:32:00, which lies between the bounds read the other way
around, does not match and the scan reports nothing. -/
theorem c8_witness :
    windowMatches ⟨"16:35", "16:30", 30⟩ ⟨16, 32, 0⟩ = false ∧
    checkWindows [⟨"16:35", "16:30", 30⟩] 0 ⟨16, 32, 0⟩ = .ok none := by
  have h := c8_inverted_window_never_matches ⟨"16:35", "16:30", 30⟩
    ⟨16, 35, 0⟩ ⟨16, 30, 0⟩ rfl rfl rfl
  exact ⟨h.1 ⟨16, 32, 0⟩, h.2 ⟨16, 32, 0⟩ 0⟩

/-- Claim C9: `save_settings` followed by `load_settings` yields exactly
the prior settings merged with the update's non-`none` fields: the merge
is `applyUpdate` (line 34's comprehension), the empty update is the
identity, and a fully-populated update overrides every field. -/
theorem c9_save_load_roundtrip (prior : Settings) (u : SettingsUpdate) :
    load_settings (save_settings prior u).2 = applyUpdate prior u ∧
    applyUpdate prior {} = prior ∧
    (∀ (nm : String) (im : Int) (dl : Bool) (ws : List Window),
      applyUpdate prior ⟨some nm, some im, some dl, some ws⟩ = ⟨some nm, im, dl, ws⟩) :=
  ⟨rfl, rfl, fun _ _ _ _ => rfl⟩

/-- A configuration reachable through `setchannel` and `addwindow`: a
channel plus one all-day window whose interval is 0. -/
def zeroIntervalCfg : Settings :=
  add_window (set_channel defaultSettings "pics") "00:00" "23:59" 0

/-- A configuration reachable through `setchannel` and `addwindow`: a
channel plus a window whose start bound is not HH:MM. -/
def badBoundCfg : Settings :=
  add_window (set_channel defaultSettings "pics") "banana" "12:00" 30

/-- An environment with one guild carrying the configured channel and
both ports healthy. -/
def healthyEnv : Env := ⟨[["pics"]], true, true⟩

/-- Claim C10: configurations reachable through `addwindow` make the tick
evaluation raise — a `ZeroDivisionError` for an interval of 0 inside a
matching window, a `ValueError` for a start bound that is not HH:MM — and
the exception occurs before any capture or delivery (the tick's effect
trace is empty). -/
theorem c10_unvalidated_window_crashes_tick :
    evaluate zeroIntervalCfg ⟨10, 0, 0⟩ = .error .divByZero ∧
    photoLoop zeroIntervalCfg healthyEnv ⟨10, 0, 0⟩ =
      ([], some (.evalError .divByZero)) ∧
    evaluate badBoundCfg ⟨10, 0, 0⟩ = .error (.parseError "banana") ∧
    photoLoop badBoundCfg healthyEnv ⟨10, 0, 0⟩ =
      ([], some (.evalError (.parseError "banana"))) :=
  ⟨rfl, rfl, rfl, rfl⟩
